import Mathlib

/-!
Shallow embedding of `src/utils/create-server-fn.ts`: a fluent builder that
composes a middleware chain, an optional validator and a terminal handler into
one compiled callable returning a uniform response envelope.

JavaScript values are modelled by `Val` (with an explicit `undefined` for
JavaScript `undefined`); asynchronous functions that may throw are modelled as
functions into `Except Fault _`, where `Fault` distinguishes the three error
shapes the executor inspects at runtime: `z.ZodError` (carrying an ordered
issue list), `ServerFnError` (the domain-error class, carrying `code` and
`errors`), and any other thrown value (carried as its `String(error)`
coercion).
-/

namespace ServerFn

/-- A JavaScript value; `undefined` models `undefined`, `obj` a plain object as an
ordered field list. The empty initial middleware context is `obj []`. -/
inductive Val where
  | undefined
  | null
  | bool (b : Bool)
  | num (n : Int)
  | str (s : String)
  | obj (fields : List (String × Val))
deriving Repr

/-- JavaScript strict inequality test against `undefined`, as used by
`input !== undefined` and `validatedInput !== undefined` in the executor. -/
def Val.isUndefined : Val → Bool
  | .undefined => true
  | _ => false

/-- The empty object literal used as the initial middleware context
(line `let context: any = {}`). -/
def Val.emptyObj : Val := .obj []

/-- One entry of `ZodError.issues`; the executor only reads `issue.message`. -/
structure ZodIssue where
  message : String
deriving Repr

/-- The runtime data of a `ServerFnError` instance: `name` (set by the class
constructors), the `Error` `message`, the `code` and the `errors` list. -/
structure ServerFnError where
  name : String
  message : String
  code : String
  errors : List String
deriving Repr

/-- The `ServerFnError` constructor (`src/utils/create-server-fn.ts` lines
112-126): `code` defaults to `"SERVER_ERROR"` unless a truthy (non-empty)
code is given; `errors` defaults to `[message]` when absent or empty. -/
def mkServerFnError (message : String) (code : Option String)
    (errors : Option (List String)) : ServerFnError :=
  { name := "ServerFnError"
  , message := message
  , code :=
      match code with
      | some c => if c = "" then "SERVER_ERROR" else c
      | none => "SERVER_ERROR"
  , errors :=
      match errors with
      | some es => if es.length > 0 then es else [message]
      | none => [message] }

/-- The `ValidationError` subclass constructor: message defaults to
`"Validation failed"`, code fixed to `"VALIDATION_ERROR"`. -/
def mkValidationError (message : Option String)
    (errors : Option (List String)) : ServerFnError :=
  { mkServerFnError (message.getD "Validation failed") (some "VALIDATION_ERROR") errors
      with name := "ValidationError" }

/-- The `UnauthorizedError` subclass constructor. -/
def mkUnauthorizedError (message : Option String) : ServerFnError :=
  { mkServerFnError (message.getD "Unauthorized") (some "UNAUTHORIZED") none
      with name := "UnauthorizedError" }

/-- The `ForbiddenError` subclass constructor. -/
def mkForbiddenError (message : Option String) : ServerFnError :=
  { mkServerFnError (message.getD "Forbidden") (some "FORBIDDEN") none
      with name := "ForbiddenError" }

/-- The `NotFoundError` subclass constructor. -/
def mkNotFoundError (message : Option String) : ServerFnError :=
  { mkServerFnError (message.getD "Not found") (some "NOT_FOUND") none
      with name := "NotFoundError" }

/-- JavaScript `String(error)` for an `Error` instance:
`name` + `": "` + `message` (just `name` when the message is empty). -/
def ServerFnError.jsString (e : ServerFnError) : String :=
  if e.message = "" then e.name else e.name ++ ": " ++ e.message

/-- A thrown failure, classified by the runtime type tests the executor
performs: `instanceof z.ZodError`, `instanceof ServerFnError`, anything else. -/
inductive Fault where
  | zod (issues : List ZodIssue)
  | domain (e : ServerFnError)
  | other (description : String)
deriving Repr

/-- Whether the fault is a `ServerFnError` (`instanceof ServerFnError`). -/
def Fault.isDomain : Fault → Bool
  | .domain _ => true
  | _ => false

/-- JavaScript `String(error)`. The executor only stringifies non-Zod faults
(the `instanceof z.ZodError` branch is always taken first), so the precise
Zod rendering is unreachable there; we render the issue messages. For any
other thrown value the description is carried directly. -/
def Fault.jsString : Fault → String
  | .zod issues => "ZodError: " ++ String.intercalate "; " (issues.map ZodIssue.message)
  | .domain e => e.jsString
  | .other d => d

/-- The uniform response envelope `ServerFnResponse`:
`{ok:true, data}` or `{ok:false, code, errors}`. -/
inductive Envelope where
  | success (data : Val)
  | failure (code : String) (errors : List String)
deriving Repr

/-- `MiddlewareFn`: an async context-to-context transformation that may
throw. -/
abbrev MiddlewareFn : Type := Val → Except Fault Val

/-- A Zod schema as the executor sees it: an object exposing `parse`, which
returns the parsed value or throws (a `ZodError` in practice, but the
executor does not assume so). -/
structure ZodType where
  parse : Val → Except Fault Val

/-- The stored validator: either a Zod schema or a custom async function.
The executor distinguishes them by `typeof this.validator === "function"`. -/
inductive Validator where
  | schema (s : ZodType)
  | custom (f : Val → Except Fault Val)

/-- Runs the stored validator on a (defined) input: the function case calls
it directly, the schema case calls `.parse` (lines 405-411). -/
def runValidator : Validator → Val → Except Fault Val
  | .custom f, input => f input
  | .schema s, input => s.parse input

/-- The argument object passed to the terminal handler: `{input, context}` or
`{context}` alone (`input = none` models the absent field). -/
structure HandlerArgs where
  input : Option Val
  context : Val

/-- The terminal handler function. -/
abbrev HandlerFn : Type := HandlerArgs → Except Fault Val

/-- `ServerFnBuilderImpl`: the private `middlewares` array and the optional
`validator`. The `constructor(middlewares)` sets only the middleware array,
leaving `validator` unset. -/
structure ServerFnBuilderImpl where
  middlewares : List MiddlewareFn
  validator : Option Validator

/-- `new ServerFnBuilderImpl(middlewares)`: validator starts unset. -/
def ServerFnBuilderImpl.new (middlewares : List MiddlewareFn) : ServerFnBuilderImpl :=
  ⟨middlewares, none⟩

/-- `use(middleware)` (lines 346-354): returns a brand-new builder built from
`[...this.middlewares, middleware]`; the constructor does not carry the
validator over. -/
def ServerFnBuilderImpl.use (b : ServerFnBuilderImpl) (middleware : MiddlewareFn) :
    ServerFnBuilderImpl :=
  ServerFnBuilderImpl.new (b.middlewares ++ [middleware])

/-- `validate(validator)` (lines 357-377): throws
`"validate() can only be called once"` synchronously when a validator is
already set; otherwise returns a new builder with the same middleware array
and the validator set. The synchronous throw is modelled as `Except.error`. -/
def ServerFnBuilderImpl.validate (b : ServerFnBuilderImpl) (validator : Validator) :
    Except String ServerFnBuilderImpl :=
  match b.validator with
  | some _ => .error "validate() can only be called once"
  | none => .ok ⟨b.middlewares, some validator⟩

/-- STEP 1 (lines 396-399): run the middleware chain sequentially, each
middleware receiving the previous one's result as context; a thrown fault
aborts the chain. -/
def runMiddlewares : List MiddlewareFn → Val → Except Fault Val
  | [], context => .ok context
  | middleware :: rest, context =>
    match middleware context with
    | .ok next => runMiddlewares rest next
    | .error f => .error f

/-- The catch block of STEP 2 (lines 412-427): a `ZodError` yields
`errors = issues.map(issue => issue.message)`; any other failure yields the
single synthetic message; the code is always `"VALIDATION_ERROR"`. -/
def validationFailureEnvelope : Fault → Envelope
  | .zod issues => .failure "VALIDATION_ERROR" (issues.map ZodIssue.message)
  | f => .failure "VALIDATION_ERROR" ["Validation failed: " ++ f.jsString]

/-- STEP 2 (lines 401-428): `validatedInput` starts as the raw input; the
validator runs only when one is configured and `input !== undefined`; a
validation failure returns the rewritten envelope early (modelled as
`Except.error` of the envelope, which the executor turns into a resolution). -/
def validateInput (validator : Option Validator) (input : Val) : Except Envelope Val :=
  match validator with
  | some v =>
    if input.isUndefined then .ok input
    else
      match runValidator v input with
      | .ok validated => .ok validated
      | .error f => .error (validationFailureEnvelope f)
  | none => .ok input

/-- STEP 3 (lines 430-438): the handler receives `{input, context}` exactly
when a validator is configured and `validatedInput !== undefined`; otherwise
it receives `{context}` alone. -/
def callHandler (validator : Option Validator) (fn : HandlerFn)
    (validatedInput : Val) (context : Val) : Except Fault Val :=
  if validator.isSome && !validatedInput.isUndefined then
    fn ⟨some validatedInput, context⟩
  else
    fn ⟨none, context⟩

/-- The `try` body of the compiled callable (lines 391-444): middleware chain,
then validation (whose failure resolves early with an envelope), then the
handler, whose result becomes the success envelope verbatim. An uncaught
fault is the `Except.error` case. -/
def runTry (middlewares : List MiddlewareFn) (validator : Option Validator)
    (fn : HandlerFn) (input : Val) : Except Fault Envelope :=
  match runMiddlewares middlewares Val.emptyObj with
  | .error f => .error f
  | .ok context =>
    match validateInput validator input with
    | .error envelope => .ok envelope
    | .ok validatedInput =>
      match callHandler validator fn validatedInput context with
      | .error f => .error f
      | .ok result => .ok (.success result)

/-- STEP 5, the catch block (lines 445-458): a `ServerFnError` resolves to
`{ok:false, code, errors}`; any other fault is re-thrown. -/
def catchStep : Except Fault Envelope → Except Fault Envelope
  | .ok envelope => .ok envelope
  | .error (.domain e) => .ok (.failure e.code e.errors)
  | .error f => .error f

/-- One invocation of the compiled callable with the given raw input
(`Val.undefined` models an absent input): resolves with an envelope (`ok`) or
propagates a fault (`error`). -/
def invoke (middlewares : List MiddlewareFn) (validator : Option Validator)
    (fn : HandlerFn) (input : Val) : Except Fault Envelope :=
  catchStep (runTry middlewares validator fn input)

/-- `handler(fn)` (lines 383-460): compiles the builder into the callable. -/
def ServerFnBuilderImpl.handler (b : ServerFnBuilderImpl) (fn : HandlerFn) :
    Val → Except Fault Envelope :=
  fun input => invoke b.middlewares b.validator fn input

/-- `createServerFn()`: a fresh builder with no middleware and no validator. -/
def createServerFn : ServerFnBuilderImpl := ServerFnBuilderImpl.new []

/-- The observable outcome of calling the handler with given args and letting
the surrounding try/catch classify its fault: used to state how the compiled
callable behaves once control reaches the handler. -/
def handlerOutcome : Except Fault Val → Except Fault Envelope
  | .ok result => .ok (.success result)
  | .error (.domain e) => .ok (.failure e.code e.errors)
  | .error f => .error f

/-! Concrete middleware, handlers and validators used to exercise the claims
on closed inputs. -/

/-- A middleware that returns its context unchanged. -/
def mwIdentity : MiddlewareFn := fun context => .ok context

/-- A middleware that throws a `NotFoundError` (a `ServerFnError`). -/
def mwDomainFault : MiddlewareFn :=
  fun _ => .error (.domain (mkNotFoundError (some "Post not found")))

/-- A middleware that throws a non-`ServerFnError` value. -/
def mwOtherFault : MiddlewareFn := fun _ => .error (.other "TypeError: boom")

/-- A middleware that produces a `{user: 1}` context. -/
def mwUserCtx : MiddlewareFn := fun _ => .ok (.obj [("user", .num 1)])

/-- A handler that returns `null`. -/
def fnNull : HandlerFn := fun _ => .ok .null

/-- A handler that echoes its `input` argument (or `undefined` when the
`input` field was not passed). -/
def fnEcho : HandlerFn :=
  fun args =>
    match args.input with
    | some v => .ok v
    | none => .ok .undefined

/-- A handler that reports whether it was given an `input` field at all. -/
def probeInput : HandlerFn :=
  fun args =>
    match args.input with
    | some _ => .ok (.bool true)
    | none => .ok (.bool false)

/-- A handler that throws a `ServerFnError` with code `"FORBIDDEN"`. -/
def fnDomainFault : HandlerFn :=
  fun _ => .error (.domain (mkServerFnError "nope" (some "FORBIDDEN") none))

/-- A handler that throws a non-`ServerFnError` value. -/
def fnOtherFault : HandlerFn := fun _ => .error (.other "RangeError: big")

/-- A custom validation function that always throws a `NotFoundError`. -/
def domainThrowFn : Val → Except Fault Val :=
  fun _ => .error (.domain (mkNotFoundError (some "User not found")))

/-- `domainThrowFn` wrapped as a stored validator. -/
def customThrowDomain : Validator := .custom domainThrowFn

/-- A custom validation function that throws a `ZodError` with two issues. -/
def zodThrowFn : Val → Except Fault Val :=
  fun _ => .error (.zod [⟨"Name is required"⟩, ⟨"Email is invalid"⟩])

/-- `zodThrowFn` wrapped as a stored validator. -/
def customThrowZod : Validator := .custom zodThrowFn

/-- A Zod schema that accepts every input unchanged. -/
def schemaId : Validator := .schema ⟨fun v => .ok v⟩

/-- A builder that already has a validator set. -/
def builderWithValidator : ServerFnBuilderImpl := ⟨[], some customThrowDomain⟩

/-- A handler throwing the `ServerFnError` built from the given constructor
arguments. -/
def throwConstructed (m : String) (c : Option String) (es : Option (List String)) :
    HandlerFn :=
  fun _ => .error (.domain (mkServerFnError m c es))

/-! Shared executor lemmas. -/

/-- Running an appended middleware chain runs the prefix first and, only when
it succeeds, runs the suffix on the context the prefix produced; a prefix
fault is the whole chain's fault. -/
theorem runMiddlewares_append (pre post : List MiddlewareFn) (c : Val) :
    runMiddlewares (pre ++ post) c =
      match runMiddlewares pre c with
      | .ok mid => runMiddlewares post mid
      | .error f => .error f := by
  induction pre generalizing c with
  | nil => rfl
  | cons m rest ih =>
    simp only [List.cons_append, runMiddlewares]
    cases m c with
    | ok next => exact ih next
    | error f => rfl

/-- When the middleware chain faults, the invocation outcome is the catch
block applied to that fault. -/
theorem invoke_of_mw_error {mws : List MiddlewareFn} {f : Fault}
    (v : Option Validator) (fn : HandlerFn) (input : Val)
    (h : runMiddlewares mws Val.emptyObj = .error f) :
    invoke mws v fn input = catchStep (.error f) := by
  unfold invoke runTry
  rw [h]

/-- When validation fails, the invocation resolves with the rewritten
envelope. -/
theorem invoke_of_validate_error {mws : List MiddlewareFn} {ctx : Val}
    {v : Option Validator} {input : Val} {env : Envelope}
    (fn : HandlerFn)
    (h1 : runMiddlewares mws Val.emptyObj = .ok ctx)
    (h2 : validateInput v input = .error env) :
    invoke mws v fn input = .ok env := by
  unfold invoke runTry
  simp only [h1, h2]
  rfl

/-- When the middleware chain and validation both succeed, the invocation
outcome is the handler call classified by the catch block. -/
theorem invoke_of_validate_ok {mws : List MiddlewareFn} {ctx vi : Val}
    {v : Option Validator} {input : Val}
    (fn : HandlerFn)
    (h1 : runMiddlewares mws Val.emptyObj = .ok ctx)
    (h2 : validateInput v input = .ok vi) :
    invoke mws v fn input = handlerOutcome (callHandler v fn vi ctx) := by
  unfold invoke runTry
  simp only [h1, h2]
  cases h3 : callHandler v fn vi ctx with
  | ok r => rfl
  | error f => cases f <;> rfl

/-- With no validator the handler is called with `{context}` alone. -/
theorem callHandler_none (fn : HandlerFn) (vi ctx : Val) :
    callHandler none fn vi ctx = fn ⟨none, ctx⟩ := by
  simp [callHandler]

/-- With no validator, `validatedInput` is the raw input. -/
theorem validateInput_none (input : Val) : validateInput none input = .ok input := rfl

/-- With a validator but absent input, validation is skipped. -/
theorem validateInput_absent (v : Validator) :
    validateInput (some v) Val.undefined = .ok Val.undefined := rfl

/-- With no validator, the whole invocation reduces to the middleware chain
followed by the handler called with `{context}` alone. -/
theorem invoke_no_validator {mws : List MiddlewareFn} {ctx : Val}
    (fn : HandlerFn) (input : Val)
    (h : runMiddlewares mws Val.emptyObj = .ok ctx) :
    invoke mws none fn input = handlerOutcome (fn ⟨none, ctx⟩) := by
  have h2 := invoke_of_validate_ok fn h (validateInput_none input)
  rw [callHandler_none] at h2
  exact h2

/-! Claims. -/

/-- C1: For every compiled pipeline invocation, a fault raised by a middleware
stage or by the handler that is a Domain Error (a `ServerFnError`, carrying a
code and message list) causes the callable to resolve with the Failure
envelope `{ok:false, code, errors}` verbatim, while any other fault propagates
out of the compiled callable unmodified and never becomes an envelope. -/
theorem claim_C1 (mws : List MiddlewareFn) (v : Option Validator)
    (fn : HandlerFn) (input : Val) :
    (∀ e, runMiddlewares mws Val.emptyObj = .error (.domain e) →
      invoke mws v fn input = .ok (.failure e.code e.errors)) ∧
    (∀ f, runMiddlewares mws Val.emptyObj = .error f → f.isDomain = false →
      invoke mws v fn input = .error f) ∧
    (∀ ctx vi e, runMiddlewares mws Val.emptyObj = .ok ctx →
      validateInput v input = .ok vi →
      callHandler v fn vi ctx = .error (.domain e) →
      invoke mws v fn input = .ok (.failure e.code e.errors)) ∧
    (∀ ctx vi f, runMiddlewares mws Val.emptyObj = .ok ctx →
      validateInput v input = .ok vi →
      callHandler v fn vi ctx = .error f → f.isDomain = false →
      invoke mws v fn input = .error f) := by
  refine ⟨?_, ?_, ?_, ?_⟩
  · intro e h
    rw [invoke_of_mw_error v fn input h]
    rfl
  · intro f h hf
    rw [invoke_of_mw_error v fn input h]
    cases f with
    | domain e => simp [Fault.isDomain] at hf
    | zod issues => rfl
    | other d => rfl
  · intro ctx vi e h1 h2 h3
    rw [invoke_of_validate_ok fn h1 h2, h3]
    rfl
  · intro ctx vi f h1 h2 h3 hf
    rw [invoke_of_validate_ok fn h1 h2, h3]
    cases f with
    | domain e => simp [Fault.isDomain] at hf
    | zod issues => rfl
    | other d => rfl

/-- C1 witness: a middleware `NotFoundError` resolves to its envelope, a
middleware `TypeError` propagates; a handler `ServerFnError` resolves to its
envelope, a handler `RangeError` propagates. -/
theorem claim_C1_witness :
    (runMiddlewares [mwDomainFault] Val.emptyObj =
        .error (.domain (mkNotFoundError (some "Post not found"))) ∧
      invoke [mwDomainFault] none fnNull Val.undefined =
        .ok (.failure "NOT_FOUND" ["Post not found"])) ∧
    (runMiddlewares [mwOtherFault] Val.emptyObj = .error (.other "TypeError: boom") ∧
      invoke [mwOtherFault] none fnNull Val.undefined = .error (.other "TypeError: boom")) ∧
    (invoke [] none fnDomainFault Val.undefined = .ok (.failure "FORBIDDEN" ["nope"])) ∧
    (invoke [] none fnOtherFault Val.undefined = .error (.other "RangeError: big")) :=
  ⟨⟨rfl, (claim_C1 [mwDomainFault] none fnNull Val.undefined).1
      (mkNotFoundError (some "Post not found")) rfl⟩,
   ⟨rfl, (claim_C1 [mwOtherFault] none fnNull Val.undefined).2.1
      (.other "TypeError: boom") rfl rfl⟩,
   (claim_C1 [] none fnDomainFault Val.undefined).2.2.1 Val.emptyObj Val.undefined
      (mkServerFnError "nope" (some "FORBIDDEN") none) rfl rfl rfl,
   (claim_C1 [] none fnOtherFault Val.undefined).2.2.2 Val.emptyObj Val.undefined
      (.other "RangeError: big") rfl rfl rfl rfl⟩

/-- C2: For every pipeline with a validator configured and input present, any
failure raised during validation resolves to a Failure envelope with code
exactly `"VALIDATION_ERROR"`: for a `ZodError` the issue messages verbatim in
emitted order, for any other failure (including a `ServerFnError` thrown by a
custom validator, whose own code and messages are discarded) a single
synthetic message derived from the fault's `String(error)` description. -/
theorem claim_C2 (mws : List MiddlewareFn) (v : Validator) (fn : HandlerFn)
    (input ctx : Val) (f : Fault)
    (h1 : runMiddlewares mws Val.emptyObj = .ok ctx)
    (h2 : input.isUndefined = false)
    (h3 : runValidator v input = .error f) :
    invoke mws (some v) fn input =
      .ok (.failure "VALIDATION_ERROR"
        (match f with
         | .zod issues => issues.map ZodIssue.message
         | g => ["Validation failed: " ++ g.jsString])) := by
  have hv : validateInput (some v) input = .error (validationFailureEnvelope f) := by
    simp [validateInput, h2, h3]
  rw [invoke_of_validate_error fn h1 hv]
  cases f with
  | zod issues => rfl
  | domain e => rfl
  | other d => rfl

/-- C2 witness: a custom validator throwing a `NotFoundError` yields
`VALIDATION_ERROR` with a single stringified message; its own `NOT_FOUND`
code and message list are discarded. -/
theorem claim_C2_witness :
    Val.isUndefined (Val.num 1) = false ∧
    runValidator customThrowDomain (Val.num 1) =
      .error (.domain (mkNotFoundError (some "User not found"))) ∧
    invoke [] (some customThrowDomain) fnNull (Val.num 1) =
      .ok (.failure "VALIDATION_ERROR"
        ["Validation failed: NotFoundError: User not found"]) :=
  ⟨rfl, rfl,
   claim_C2 [] customThrowDomain fnNull (Val.num 1) Val.emptyObj
     (.domain (mkNotFoundError (some "User not found"))) rfl rfl rfl⟩

/-- C3 counterexample: the claim says a no-validator pipeline passes the raw
input through to the handler; in the code the handler of a no-validator
pipeline is called with `{context}` alone. With input `5` and a handler that
reports whether it received an `input` field, the call resolves to
`{ok:true, data:false}` — the handler observed no input — not to
`{ok:true, data:true}` as the claim would require. -/
theorem claim_C3_counterexample :
    invoke [] none probeInput (Val.num 5) = .ok (.success (Val.bool false)) ∧
    invoke [] none probeInput (Val.num 5) ≠ .ok (.success (Val.bool true)) := by
  constructor
  · rfl
  · intro h
    rw [show invoke [] none probeInput (Val.num 5) = .ok (.success (Val.bool false))
        from rfl] at h
    simp at h

/-- C3 (amended): for every pipeline with no validator configured, invoking
the compiled callable with any input performs no validation and no envelope
short-circuit, but the raw input is not passed through: the handler is invoked
with only the composed context and receives no input value. -/
theorem claim_C3 (mws : List MiddlewareFn) (fn : HandlerFn) (input ctx : Val)
    (h : runMiddlewares mws Val.emptyObj = .ok ctx) :
    invoke mws none fn input = handlerOutcome (fn ⟨none, ctx⟩) :=
  invoke_no_validator fn input h

/-- C3 witness: with input `5` and an echoing handler, the no-validator
pipeline resolves with `undefined` — the handler was called without the
input field. -/
theorem claim_C3_witness :
    runMiddlewares [mwUserCtx] Val.emptyObj = .ok (Val.obj [("user", Val.num 1)]) ∧
    invoke [mwUserCtx] none fnEcho (Val.num 5) = .ok (.success Val.undefined) :=
  ⟨rfl, claim_C3 [mwUserCtx] fnEcho (Val.num 5) (Val.obj [("user", Val.num 1)]) rfl⟩

/-- C4: middleware stages execute strictly in declaration order, one at a
time: the chain over `pre ++ post` runs `pre` first and hands exactly the
context it produced to `post` (the compiled callable starts the chain from
the empty context), and a fault in `pre` aborts `post` entirely — the
invocation outcome is the classified prefix fault, for every suffix. -/
theorem claim_C4 (pre post : List MiddlewareFn) (c : Val) (v : Option Validator)
    (fn : HandlerFn) (input : Val) (f : Fault) :
    (runMiddlewares (pre ++ post) c =
      match runMiddlewares pre c with
      | .ok mid => runMiddlewares post mid
      | .error g => .error g) ∧
    (runMiddlewares pre Val.emptyObj = .error f →
      runMiddlewares (pre ++ post) Val.emptyObj = .error f ∧
      invoke (pre ++ post) v fn input = catchStep (.error f)) := by
  refine ⟨runMiddlewares_append pre post c, ?_⟩
  intro h
  have habort : runMiddlewares (pre ++ post) Val.emptyObj = .error f := by
    rw [runMiddlewares_append pre post Val.emptyObj, h]
  exact ⟨habort, invoke_of_mw_error v fn input habort⟩

/-- C4 witness: a first-stage `NotFoundError` makes the two-stage chain fault
without running the second stage, and the invocation resolves with the
classified envelope. -/
theorem claim_C4_witness :
    runMiddlewares ([mwDomainFault] ++ [mwUserCtx]) Val.emptyObj =
      .error (.domain (mkNotFoundError (some "Post not found"))) ∧
    invoke ([mwDomainFault] ++ [mwUserCtx]) none fnNull Val.undefined =
      .ok (.failure "NOT_FOUND" ["Post not found"]) :=
  (claim_C4 [mwDomainFault] [mwUserCtx] Val.emptyObj none fnNull Val.undefined
    (.domain (mkNotFoundError (some "Post not found")))).2 rfl

/-- C5: extensions of the same builder value are independent: `b.use s1` and
`b.use s2` each append exactly their own stage to `b`'s list, a further
extension of one sibling is invisible to the other, a validator attachment
keeps the middleware list unchanged and is invisible to a `use` sibling, and
the compiled callable of a sibling depends only on that sibling's own stage
list and validator. -/
theorem claim_C5 (b : ServerFnBuilderImpl) (s1 s2 s3 : MiddlewareFn) (v : Validator) :
    (b.use s1).middlewares = b.middlewares ++ [s1] ∧
    (b.use s2).middlewares = b.middlewares ++ [s2] ∧
    ((b.use s1).use s3).middlewares = b.middlewares ++ [s1, s3] ∧
    (∀ b1, b.validate v = .ok b1 →
      b1.middlewares = b.middlewares ∧ b1.validator = some v ∧
      (b.use s2).validator = none) ∧
    (∀ fn input, (b.use s1).handler fn input =
      invoke (b.middlewares ++ [s1]) none fn input) := by
  refine ⟨rfl, rfl, ?_, ?_, ?_⟩
  · simp [ServerFnBuilderImpl.use, ServerFnBuilderImpl.new, List.append_assoc]
  · intro b1 hb
    cases hv : b.validator with
    | some u => simp [ServerFnBuilderImpl.validate, hv] at hb
    | none =>
      simp only [ServerFnBuilderImpl.validate, hv, Except.ok.injEq] at hb
      subst hb
      exact ⟨rfl, rfl, rfl⟩
  · intro fn input
    rfl

/-- C5 witness: two siblings of the empty builder, and a validator sibling,
each see only their own additions. -/
theorem claim_C5_witness :
    (createServerFn.use mwUserCtx).middlewares = createServerFn.middlewares ++ [mwUserCtx] ∧
    ((createServerFn.use mwUserCtx).use mwIdentity).middlewares =
      createServerFn.middlewares ++ [mwUserCtx, mwIdentity] ∧
    ((⟨[], some customThrowZod⟩ : ServerFnBuilderImpl).middlewares = createServerFn.middlewares ∧
      (⟨[], some customThrowZod⟩ : ServerFnBuilderImpl).validator = some customThrowZod ∧
      (createServerFn.use mwIdentity).validator = none) :=
  ⟨(claim_C5 createServerFn mwUserCtx mwIdentity mwIdentity customThrowZod).1,
   (claim_C5 createServerFn mwUserCtx mwIdentity mwIdentity customThrowZod).2.2.1,
   (claim_C5 createServerFn mwUserCtx mwIdentity mwIdentity customThrowZod).2.2.2.1
     ⟨[], some customThrowZod⟩ rfl⟩

/-- C6: attaching a second validator (schema or custom, in any combination)
to a builder that already has one throws
`"validate() can only be called once"` synchronously at construction time —
stated both for any builder whose validator is set and for the result of a
first successful `validate` call. -/
theorem claim_C6 (b : ServerFnBuilderImpl) (v w : Validator) :
    (b.validator.isSome = true →
      b.validate w = .error "validate() can only be called once") ∧
    (∀ b1, b.validate v = .ok b1 →
      b1.validate w = .error "validate() can only be called once") := by
  constructor
  · intro h
    cases hv : b.validator with
    | none => rw [hv] at h; simp at h
    | some u => simp [ServerFnBuilderImpl.validate, hv]
  · intro b1 hb
    cases hv : b.validator with
    | some u => simp [ServerFnBuilderImpl.validate, hv] at hb
    | none =>
      simp only [ServerFnBuilderImpl.validate, hv, Except.ok.injEq] at hb
      subst hb
      rfl

/-- C6 witness: a builder holding a custom validator rejects a schema, and
the builder produced by a first `validate` (schema) rejects a custom one. -/
theorem claim_C6_witness :
    builderWithValidator.validate schemaId =
      .error "validate() can only be called once" ∧
    (⟨[], some schemaId⟩ : ServerFnBuilderImpl).validate customThrowDomain =
      .error "validate() can only be called once" :=
  ⟨(claim_C6 builderWithValidator schemaId schemaId).1 rfl,
   (claim_C6 createServerFn schemaId customThrowDomain).2 ⟨[], some schemaId⟩ rfl⟩

/-- C7: for every pipeline with a validator configured, when the caller
supplies no input at all (`undefined`), validation is skipped entirely —
whatever the validator would do — and the handler is invoked with only the
composed context and no input value. -/
theorem claim_C7 (mws : List MiddlewareFn) (v : Validator) (fn : HandlerFn)
    (ctx : Val)
    (h : runMiddlewares mws Val.emptyObj = .ok ctx) :
    invoke mws (some v) fn Val.undefined = handlerOutcome (fn ⟨none, ctx⟩) := by
  rw [invoke_of_validate_ok fn h (validateInput_absent v)]
  simp [callHandler, Val.isUndefined]

/-- C7 witness: a validator that would throw on any input is never consulted
when the input is absent; the probing handler reports it received no input
field. -/
theorem claim_C7_witness :
    runMiddlewares [mwUserCtx] Val.emptyObj = .ok (Val.obj [("user", Val.num 1)]) ∧
    invoke [mwUserCtx] (some customThrowDomain) probeInput Val.undefined =
      .ok (.success (Val.bool false)) :=
  ⟨rfl, claim_C7 [mwUserCtx] customThrowDomain probeInput
    (Val.obj [("user", Val.num 1)]) rfl⟩

/-- C8: `use(middleware)` on a builder returns a builder whose validator is
unset — the validator is not carried over — so adding a stage after attaching
a validator silently discards it: subsequent invocations skip validation and
the handler receives no input value. -/
theorem claim_C8 (b : ServerFnBuilderImpl) (m : MiddlewareFn) :
    (b.use m).validator = none ∧
    (b.use m).middlewares = b.middlewares ++ [m] ∧
    (∀ fn input ctx,
      runMiddlewares (b.use m).middlewares Val.emptyObj = .ok ctx →
      (b.use m).handler fn input = handlerOutcome (fn ⟨none, ctx⟩)) := by
  refine ⟨rfl, rfl, ?_⟩
  intro fn input ctx h
  exact invoke_no_validator fn input h

/-- C8 witness: a builder that has a validator set loses it through `use`;
invoking the compiled callable with input `7` runs no validation and the
handler observes no input field. -/
theorem claim_C8_witness :
    (builderWithValidator.use mwIdentity).validator = none ∧
    (builderWithValidator.use mwIdentity).handler probeInput (Val.num 7) =
      .ok (.success (Val.bool false)) :=
  ⟨(claim_C8 builderWithValidator mwIdentity).1,
   (claim_C8 builderWithValidator mwIdentity).2.2 probeInput (Val.num 7)
     Val.emptyObj rfl⟩

/-- C9: every `ServerFnError` construction yields a non-empty `errors` list —
an omitted or explicitly empty list is replaced by `[message]` — hence a
Failure envelope produced from a constructed Domain Error has at least one
entry in `errors`. -/
theorem claim_C9 (m : String) (c : Option String) (es : Option (List String)) :
    (mkServerFnError m c es).errors ≠ [] ∧
    (es = none → (mkServerFnError m c es).errors = [m]) ∧
    (es = some [] → (mkServerFnError m c es).errors = [m]) ∧
    (∀ input, invoke [] none (throwConstructed m c es) input =
      .ok (.failure (mkServerFnError m c es).code (mkServerFnError m c es).errors)) := by
  refine ⟨?_, ?_, ?_, ?_⟩
  · cases es with
    | none => simp [mkServerFnError]
    | some l =>
      cases l with
      | nil => simp [mkServerFnError]
      | cons a t => simp [mkServerFnError]
  · intro h
    subst h
    rfl
  · intro h
    subst h
    rfl
  · intro input
    have h : runMiddlewares [] Val.emptyObj = Except.ok Val.emptyObj := rfl
    rw [invoke_no_validator (throwConstructed m c es) input h]
    rfl

/-- C9 witness: an explicitly empty errors list falls back to `[message]`,
the default code is `"SERVER_ERROR"`, and the resulting envelope carries the
non-empty list. -/
theorem claim_C9_witness :
    (mkServerFnError "Something went wrong" none (some [])).errors ≠ [] ∧
    (mkServerFnError "Something went wrong" none (some [])).errors =
      ["Something went wrong"] ∧
    invoke [] none (throwConstructed "Something went wrong" none (some [])) Val.undefined =
      .ok (.failure "SERVER_ERROR" ["Something went wrong"]) :=
  ⟨(claim_C9 "Something went wrong" none (some [])).1,
   (claim_C9 "Something went wrong" none (some [])).2.2.1 rfl,
   (claim_C9 "Something went wrong" none (some [])).2.2.2 Val.undefined⟩

/-- C10: the validation-failure rewrite dispatches on the type of the thrown
error, not on the validator variant: a custom (function) validator that
throws a `ZodError` gets the issue messages verbatim as `errors`, not a
single stringified message. -/
theorem claim_C10 (mws : List MiddlewareFn) (g : Val → Except Fault Val)
    (fn : HandlerFn) (input ctx : Val) (issues : List ZodIssue)
    (h1 : runMiddlewares mws Val.emptyObj = .ok ctx)
    (h2 : input.isUndefined = false)
    (h3 : g input = .error (.zod issues)) :
    invoke mws (some (.custom g)) fn input =
      .ok (.failure "VALIDATION_ERROR" (issues.map ZodIssue.message)) := by
  have hv : validateInput (some (.custom g)) input =
      .error (.failure "VALIDATION_ERROR" (issues.map ZodIssue.message)) := by
    simp [validateInput, h2, runValidator, h3, validationFailureEnvelope]
  exact invoke_of_validate_error fn h1 hv

/-- C10 witness: a custom validator throwing a `ZodError` with two issues
yields both issue messages verbatim, not one synthetic message. -/
theorem claim_C10_witness :
    zodThrowFn (Val.num 2) =
      .error (.zod [⟨"Name is required"⟩, ⟨"Email is invalid"⟩]) ∧
    invoke [] (some (.custom zodThrowFn)) fnNull (Val.num 2) =
      .ok (.failure "VALIDATION_ERROR" ["Name is required", "Email is invalid"]) :=
  ⟨rfl, claim_C10 [] zodThrowFn fnNull (Val.num 2) Val.emptyObj
    [⟨"Name is required"⟩, ⟨"Email is invalid"⟩] rfl rfl rfl⟩

end ServerFn
